import Mathlib

/-!
Shallow embedding of the came_domotic_unofficial client library
(`came_domotic_unofficial/__init__.py` and `came_domotic_unofficial/models.py`)
and proofs about the session/protocol layer and the entity data model.

JSON values exchanged with the server are modelled by the inductive `Json`;
Python exceptions by the inductive `Err`; the network transport by a list of
pending `_send_command` outcomes that each send consumes from the front.
Time is passed explicitly (an integer count of seconds standing for
`datetime.now(timezone.utc)`).  Python 3.12 enum-membership semantics are
used for `x in EnumClass` (value-based containment, never raising), matching
the interpreter version the repository's test-suite requires.
-/

namespace CameDomotic

/-- JSON values (the payloads parsed from / serialized to the CAME server). -/
inductive Json where
  | null
  | bool (b : Bool)
  | int (n : Int)
  | str (s : String)
  | arr (xs : List Json)
  | obj (fields : List (String × Json))
deriving Inhabited

/-- Python exceptions raised by the library, as an error type.
`requestError` is `CameDomoticRequestError`, `badAckError` its subclass
`CameDomoticBadAckError` (carrying the server's ack-reason value),
`authError` is `CameDomoticAuthError`. -/
inductive Err where
  | keyError (key : String)
  | typeError (msg : String)
  | valueError (msg : String)
  | attributeError (msg : String)
  | requestError
  | badAckError (code : Json)
  | authError

/-- Python `isinstance(x, int)` view of a JSON value (`bool` is an `int`
subclass in Python, so `True`/`False` count as `1`/`0`). -/
def pyIntOf : Json → Option Int
  | .int n => some n
  | .bool b => some (if b then 1 else 0)
  | _ => none

/-- Python truthiness of a JSON value. -/
def pyTruthy : Json → Bool
  | .null => false
  | .bool b => b
  | .int n => n != 0
  | .str s => s != ""
  | .arr xs => !xs.isEmpty
  | .obj fs => !fs.isEmpty

/-- Python `==` as the protocol layer uses it: numeric cross-equality
between `bool` and `int`, string equality, `None == None`; every comparison
the embedded code performs has a scalar on at least one side, and a Python
comparison between a container and a scalar is `False`, so the
container-vs-container case (which never occurs here) is modelled as
`false`. -/
def pyEq (a b : Json) : Bool :=
  match pyIntOf a, pyIntOf b with
  | some x, some y => x == y
  | _, _ =>
    match a, b with
    | .null, .null => true
    | .str x, .str y => x == y
    | _, _ => false

/-- Python subscript `j[key]`: `KeyError` when a dict lacks the key,
`TypeError` when the value is not a dict (string subscripts on non-dicts). -/
def getItem (j : Json) (key : String) : Except Err Json :=
  match j with
  | .obj fields =>
    match fields.lookup key with
    | some v => .ok v
    | none => .error (.keyError key)
  | _ => .error (.typeError "object is not subscriptable")

/-- Python `len(j)`: defined for strings, lists and dicts, `TypeError` otherwise. -/
def pyLen : Json → Except Err Int
  | .str s => .ok s.length
  | .arr xs => .ok xs.length
  | .obj fs => .ok fs.length
  | _ => .error (.typeError "object has no len")

/-- Python `j > 0`: numeric comparison, `TypeError` for non-numbers. -/
def pyGtZero (j : Json) : Except Err (Option Int) :=
  match pyIntOf j with
  | some v => .ok (if v > 0 then some v else none)
  | none => .error (.typeError "not supported between instances")

/-- Shallow Python `str()` of a scalar JSON value (containers abstracted;
no claim formats a container). -/
def pyScalarStr : Json → String
  | .null => "None"
  | .bool b => if b then "True" else "False"
  | .int n => toString n
  | .str s => s
  | .arr _ => "<list>"
  | .obj _ => "<dict>"

/-- Python `repr()` of a scalar JSON value (strings get quotes), used when a
list field is interpolated into an entity `__repr__`. -/
def pyScalarRepr : Json → String
  | .str s => "'" ++ s ++ "'"
  | j => pyScalarStr j

/-- Python `str()` of a list (as `partial_openings` is formatted in
`Opening.__repr__`). -/
def pyListStr (xs : List Json) : String :=
  "[" ++ String.intercalate ", " (xs.map pyScalarRepr) ++ "]"

/-! ## Enumerations from `models.py` -/

/-- EntityStatus enum (`models.py`): OFF_STOPPED=0, ON_OPEN_TRIGGERED=1,
CLOSED=2, UNKNOWN=-1, NOT_APPLICABLE=-99. -/
inductive EntityStatus where
  | OFF_STOPPED
  | ON_OPEN_TRIGGERED
  | CLOSED
  | UNKNOWN
  | NOT_APPLICABLE
deriving DecidableEq, Repr

def EntityStatus.value : EntityStatus → Int
  | .OFF_STOPPED => 0
  | .ON_OPEN_TRIGGERED => 1
  | .CLOSED => 2
  | .UNKNOWN => -1
  | .NOT_APPLICABLE => -99

def EntityStatus.enumName : EntityStatus → String
  | .OFF_STOPPED => "OFF_STOPPED"
  | .ON_OPEN_TRIGGERED => "ON_OPEN_TRIGGERED"
  | .CLOSED => "CLOSED"
  | .UNKNOWN => "UNKNOWN"
  | .NOT_APPLICABLE => "NOT_APPLICABLE"

/-- The values of `EntityStatus._value2member_map_`. -/
def entityStatusValues : List Int := [0, 1, 2, -1, -99]

/-- `EntityStatus(v)` by value (total on `entityStatusValues`). -/
def entityStatusOfValue (v : Int) : EntityStatus :=
  if v = 0 then .OFF_STOPPED
  else if v = 1 then .ON_OPEN_TRIGGERED
  else if v = 2 then .CLOSED
  else if v = -1 then .UNKNOWN
  else .NOT_APPLICABLE

/-- LightType enum: ON_OFF="STEP_STEP", DIMMABLE="DIMMER". -/
inductive LightType where
  | ON_OFF
  | DIMMABLE
deriving DecidableEq, Repr

def LightType.enumName : LightType → String
  | .ON_OFF => "ON_OFF"
  | .DIMMABLE => "DIMMABLE"

/-- OpeningType enum: OPEN_CLOSE=0. -/
inductive OpeningType where
  | OPEN_CLOSE
deriving DecidableEq, Repr

/-- DigitalInputType enum: BUTTON=1. -/
inductive DigitalInputType where
  | BUTTON
deriving DecidableEq, Repr

/-- ScenarioIcon enum: LIGHTS=14, OPENINGS_OPEN=22, OPENINGS_CLOSE=23, UNKNOWN=-1. -/
inductive ScenarioIcon where
  | LIGHTS
  | OPENINGS_OPEN
  | OPENINGS_CLOSE
  | UNKNOWN
deriving DecidableEq, Repr

def ScenarioIcon.enumName : ScenarioIcon → String
  | .LIGHTS => "LIGHTS"
  | .OPENINGS_OPEN => "OPENINGS_OPEN"
  | .OPENINGS_CLOSE => "OPENINGS_CLOSE"
  | .UNKNOWN => "UNKNOWN"

def scenarioIconValues : List Int := [14, 22, 23, -1]

def scenarioIconOfValue (v : Int) : ScenarioIcon :=
  if v = 14 then .LIGHTS
  else if v = 22 then .OPENINGS_OPEN
  else if v = 23 then .OPENINGS_CLOSE
  else .UNKNOWN

/-- ScenarioStatus enum: NOT_APPLIED=0, ONGOING=1, APPLIED=2. -/
inductive ScenarioStatus where
  | NOT_APPLIED
  | ONGOING
  | APPLIED
deriving DecidableEq, Repr

def ScenarioStatus.enumName : ScenarioStatus → String
  | .NOT_APPLIED => "NOT_APPLIED"
  | .ONGOING => "ONGOING"
  | .APPLIED => "APPLIED"

def scenarioStatusValues : List Int := [0, 1, 2]

def scenarioStatusOfValue (v : Int) : ScenarioStatus :=
  if v = 0 then .NOT_APPLIED
  else if v = 1 then .ONGOING
  else .APPLIED

/-- EntityType enum (`models.py`); the value is the list-request command. -/
inductive EntityType where
  | FEATURES
  | LIGHTS
  | OPENINGS
  | DIGITALIN
  | SCENARIOS
deriving DecidableEq, Repr

def EntityType.value : EntityType → String
  | .FEATURES => "feature_list_req"
  | .LIGHTS => "light_list_req"
  | .OPENINGS => "openings_list_req"
  | .DIGITALIN => "digitalin_list_req"
  | .SCENARIOS => "scenarios_list_req"

/-! ## The status argument

A Python caller may pass any value where an `EntityStatus` is expected.
`StatusArg.member` is a real enum member, `StatusArg.raw` any other value. -/

inductive StatusArg where
  | member (s : EntityStatus)
  | raw (j : Json)

/-- Truthiness of a status argument (enum members are always truthy). -/
def statusArgTruthy : StatusArg → Bool
  | .member _ => true
  | .raw j => pyTruthy j

/-- Python 3.12 `x in EntityStatus`: true for members and for values of
members (via `_value2member_map_`, where `bool` hashes like `int`). -/
def statusArgIn : StatusArg → Bool
  | .member _ => true
  | .raw j =>
    match pyIntOf j with
    | some v => entityStatusValues.contains v
    | none => false

/-- Python f-string rendering of a stored status (used by `__repr__`). -/
def statusArgFormat : StatusArg → String
  | .member s => "EntityStatus." ++ s.enumName
  | .raw j => pyScalarStr j

/-- `status.value`: enum members expose `.value`; other Python values the
callers pass (strings, numbers, None) have no such attribute. -/
def statusValue : StatusArg → Except Err Int
  | .member s => .ok s.value
  | .raw _ => .error (.attributeError "object has no attribute value")

/-! ## Entity objects (`models.py`) -/

/-- Fields shared by every `CameEntity`. -/
structure EntityData where
  id : Int
  name : String
  status : StatusArg

/-- The concrete entity classes, as a tagged variant; the tag models the
Python runtime class (`type(self)`). -/
inductive CameEntityObj where
  | base (d : EntityData)
  | feature (name : String)
  | light (d : EntityData) (light_type : LightType) (brightness : Int)
  | opening (d : EntityData) (close_entity_id : Int) (opening_type : OpeningType)
      (partials : List Json)
  | digitalInput (d : EntityData) (button_type : DigitalInputType) (address : Int)
      (ack_code : Int) (radio_node_id : String) (rf_radio_link_quality : Int)
      (utc_time : Int)
  | scenario (d : EntityData) (scenario_status : ScenarioStatus) (icon : ScenarioIcon)
      (is_user_defined : Bool)

/-- Index of the concrete class, modelling `type(self) is type(other)`. -/
def ctorIndex : CameEntityObj → Nat
  | .base _ => 0
  | .feature _ => 1
  | .light _ _ _ => 2
  | .opening _ _ _ _ => 3
  | .digitalInput _ _ _ _ _ _ _ => 4
  | .scenario _ _ _ _ => 5

/-- The `__repr__` of each entity class, transcribed from the f-strings in
`models.py`. -/
def entityRepr : CameEntityObj → String
  | .base d =>
      "CameEntity(" ++ toString d.id ++ ",\"" ++ d.name ++ "\",status="
        ++ statusArgFormat d.status ++ ")"
  | .feature n => "Feature(\"" ++ n ++ "\")"
  | .light d lt b =>
      "Light(" ++ toString d.id ++ ",\"" ++ d.name ++ "\",status="
        ++ statusArgFormat d.status ++ ",light_type=LightType." ++ lt.enumName
        ++ ",brightness=" ++ toString b ++ ")"
  | .opening d c _ po =>
      "Opening(" ++ toString d.id ++ "," ++ toString c ++ ",\"" ++ d.name
        ++ "\",status=" ++ statusArgFormat d.status
        ++ ",opening_type=OpeningType.OPEN_CLOSE,partial_openings="
        ++ pyListStr po ++ ")"
  | .digitalInput d _ a ack rn rf utc =>
      "DigitalInput(" ++ toString d.id ++ ",\"" ++ d.name
        ++ "\",button_type=DigitalInputType.BUTTON,address=" ++ toString a
        ++ ",ack_code=" ++ toString ack ++ ",radio_node_id=\"" ++ rn
        ++ "\",rf_radio_link_quality=" ++ toString rf ++ ",utc_time="
        ++ toString utc ++ ")"
  | .scenario d ss ic iud =>
      "Scenario(" ++ toString d.id ++ ",\"" ++ d.name ++ "\",status="
        ++ statusArgFormat d.status ++ ",scenario_status=ScenarioStatus."
        ++ ss.enumName ++ ",icon=ScenarioIcon." ++ ic.enumName
        ++ ",is_user_defined=" ++ (if iud then "True" else "False") ++ ")"

/-- `CameEntity.__eq__`: `type(self) is type(other) and repr(self) == repr(other)`. -/
def entityEq (a b : CameEntityObj) : Bool :=
  ctorIndex a == ctorIndex b && entityRepr a == entityRepr b

/-- `CameEntity.__hash__` hashes the pair `(type(self), repr(self))`; this is
the pair being hashed. -/
def entityHashKey (a : CameEntityObj) : Nat × String :=
  (ctorIndex a, entityRepr a)

/-! ## Constructors and setters (`models.py`) -/

/-- Name normalization in `CameEntity.__init__`:
`name if name and isinstance(name, str) and name != "" else "Unknown"`. -/
def normName : Json → String
  | .str s => if s ≠ "" then s else "Unknown"
  | _ => "Unknown"

/-- Status normalization in `CameEntity.__init__`:
`status if status and status in EntityStatus else EntityStatus.UNKNOWN`. -/
def normStatus (s : StatusArg) : StatusArg :=
  if statusArgTruthy s && statusArgIn s then s else .member .UNKNOWN

/-- `CameEntity.__init__`: validates that the id is an integer, then
normalizes name and status. -/
def cameEntityInit (entity_id : Json) (name : Json) (status : StatusArg) :
    Except Err EntityData :=
  match pyIntOf entity_id with
  | none => .error (.typeError "The entity ID must be an integer")
  | some i => .ok { id := i, name := normName name, status := normStatus status }

/-- The `status` property setter of `CameEntity`:
`if value not in EntityStatus: raise TypeError`. -/
def cameEntityStatusSet (d : EntityData) (value : StatusArg) : Except Err EntityData :=
  if statusArgIn value then .ok { d with status := value }
  else .error (.typeError "The entity status must be a valid EntityStatus")

/-- `Light.__init__`: validates the brightness argument is `None` or an
integer, clamps it to `[0, 100]`, then runs the base initializer.
`light_type` membership is guaranteed by the argument's type. -/
def lightInit (entity_id : Json) (name : Json) (status : StatusArg)
    (light_type : LightType) (brightness : Json) : Except Err CameEntityObj := do
  let bArg ← match brightness with
    | .null => Except.ok (none : Option Int)
    | j =>
      match pyIntOf j with
      | some v => Except.ok (some v)
      | none => Except.error (.typeError "The brightness value must be an integer")
  let bval : Int := match bArg with
    | none => 100
    | some v => if v > 100 then 100 else if v < 0 then 0 else v
  let d ← cameEntityInit entity_id name status
  pure (.light d light_type bval)

/-- The `brightness` property setter of `Light`:
`if value is None or value < 0 or value > 100: raise ValueError`
(a non-numeric value fails the `<` comparison with `TypeError`). -/
def lightBrightnessSet (l : CameEntityObj) (value : Json) : Except Err CameEntityObj :=
  match l with
  | .light d lt _ =>
    match value with
    | .null => .error (.valueError "The brightness value must be between 0 and 100")
    | j =>
      match pyIntOf j with
      | some v =>
        if v < 0 || v > 100 then
          .error (.valueError "The brightness value must be between 0 and 100")
        else .ok (.light d lt v)
      | none => .error (.typeError "not supported between instances")
  | _ => .error (.typeError "not a Light")

/-- `Opening.__init__`: validates the close id is `None` or an integer,
defaults it to the entity id when falsy, then runs the base initializer. -/
def openingInit (entity_id : Json) (name : Json) (status : StatusArg)
    (close_entity_id : Option Json) (opening_type : OpeningType)
    (partials : Option (List Json)) : Except Err CameEntityObj := do
  let c ← match close_entity_id with
    | none => Except.ok (none : Option Int)
    | some j =>
      match pyIntOf j with
      | some v => Except.ok (some v)
      | none => Except.error (.typeError "The closing entity ID must be an integer")
  let d ← cameEntityInit entity_id name status
  let closeVal : Int := match c with
    | some v => if v ≠ 0 then v else d.id
    | none => d.id
  pure (.opening d closeVal opening_type (partials.getD []))

/-- `DigitalInput.__init__`; the optional arguments are already well-typed
here because `from_json` (the only caller in the claims) guards each with an
`isinstance` test before passing it. Status is forced to NOT_APPLICABLE. -/
def digitalInputInit (entity_id : Json) (name : Json) (button_type : DigitalInputType)
    (address : Int) (ack_code : Int) (radio_node_id : String)
    (rf_radio_link_quality : Int) (utc_time : Int) : Except Err CameEntityObj := do
  let d ← cameEntityInit entity_id name (.member .NOT_APPLICABLE)
  pure (.digitalInput d button_type address ack_code radio_node_id
    rf_radio_link_quality utc_time)

/-- `Scenario.__init__`; the enum arguments are well-typed for the same
reason as in `digitalInputInit`. -/
def scenarioInit (entity_id : Json) (name : Json) (status : StatusArg)
    (scenario_status : ScenarioStatus) (icon : ScenarioIcon)
    (is_user_defined : Bool) : Except Err CameEntityObj := do
  let d ← cameEntityInit entity_id name status
  pure (.scenario d scenario_status icon is_user_defined)

/-! ## from_json factories (`models.py`) -/

/-- `"k" in json_data` for a dict input. -/
def hasKey (fields : List (String × Json)) (k : String) : Bool :=
  (fields.lookup k).isSome

/-- The guarded status lookup shared by `Light.from_json` and
`Opening.from_json`:
`EntityStatus(json_data["status"]) if "status" in json_data and
json_data["status"] in EntityStatus._value2member_map_ else default`.
The membership test is on a plain dict, so an unhashable value (a JSON
list or object) raises `TypeError: unhashable type`; any hashable
non-matching value falls back to the default (`bool` hashes like its
int value). -/
def statusFromValueMap (fields : List (String × Json)) (default : EntityStatus) :
    Except Err EntityStatus :=
  match fields.lookup "status" with
  | none => .ok default
  | some (.arr _) => .error (.typeError "unhashable type")
  | some (.obj _) => .error (.typeError "unhashable type")
  | some v =>
    match pyIntOf v with
    | some n =>
      .ok (if entityStatusValues.contains n then entityStatusOfValue n else default)
    | none => .ok default

/-- The guarded light-type lookup in `Light.from_json`:
membership of `json_data["type"]` in `LightType._value2member_map_`
(a plain dict — unhashable values raise `TypeError`), values
"STEP_STEP"/"DIMMER" map to their members, anything else defaults. -/
def lightTypeFromValueMap (fields : List (String × Json)) : Except Err LightType :=
  match fields.lookup "type" with
  | none => .ok .ON_OFF
  | some (.arr _) => .error (.typeError "unhashable type")
  | some (.obj _) => .error (.typeError "unhashable type")
  | some (.str s) =>
    .ok (if s = "STEP_STEP" then .ON_OFF else if s = "DIMMER" then .DIMMABLE else .ON_OFF)
  | some _ => .ok .ON_OFF

/-- The guarded opening-type lookup in `Opening.from_json`: the same
plain-dict membership (unhashable values raise `TypeError`); the only
member value is 0 and the default is the same `OPEN_CLOSE` member. -/
def openingTypeFromValueMap (fields : List (String × Json)) :
    Except Err OpeningType :=
  match fields.lookup "type" with
  | none => .ok .OPEN_CLOSE
  | some (.arr _) => .error (.typeError "unhashable type")
  | some (.obj _) => .error (.typeError "unhashable type")
  | some _ => .ok .OPEN_CLOSE

/-- `Light.from_json`: `act_id` is mandatory; `name`, `status`, `type`,
`perc` are optional with guarded fallbacks to the class defaults — but the
`status`/`type` guards can raise `TypeError` on unhashable values.  The
argument expressions are evaluated in source order (`act_id`, name,
status, type, perc). -/
def lightFromJson (json_data : Json) : Except Err CameEntityObj := do
  let act ← getItem json_data "act_id"
  let fields : List (String × Json) := match json_data with
    | .obj fs => fs
    | _ => []
  let nameArg : Json := match fields.lookup "name" with
    | some (.str s) => .str s
    | _ => .str "Unknown"
  let status ← statusFromValueMap fields .UNKNOWN
  let lt ← lightTypeFromValueMap fields
  let perc : Int := match fields.lookup "perc" with
    | some v =>
      match pyIntOf v with
      | some p => min (max p 0) 100
      | none => 100
    | none => 100
  lightInit act nameArg (.member status) lt (.int perc)

/-- `Opening.from_json`: `open_act_id` is mandatory; `close_act_id`,
`name`, `status`, `type`, `partial` are optional with guarded fallbacks —
but the `status`/`type` guards can raise `TypeError` on unhashable values.
The keyword arguments are evaluated in source order (`open_act_id`,
close, name, status, type, partial). -/
def openingFromJson (json_data : Json) : Except Err CameEntityObj := do
  let openAct ← getItem json_data "open_act_id"
  let fields : List (String × Json) := match json_data with
    | .obj fs => fs
    | _ => []
  let closeArg : Json := match fields.lookup "close_act_id" with
    | some v => match pyIntOf v with
      | some _ => v
      | none => openAct
    | none => openAct
  let nameArg : Json := match fields.lookup "name" with
    | some (.str s) => .str s
    | _ => .str "Unknown"
  let status ← statusFromValueMap fields .UNKNOWN
  let ot ← openingTypeFromValueMap fields
  let po : Option (List Json) := match fields.lookup "partial" with
    | some (.arr xs) => some xs
    | _ => none
  openingInit openAct nameArg (.member status) (some closeArg) ot po

/-- `DigitalInput.from_json`: `act_id` is mandatory; every other key is
optional with an `isinstance`-guarded fallback to the class default. -/
def digitalInputFromJson (json_data : Json) : Except Err CameEntityObj := do
  let act ← getItem json_data "act_id"
  let fields : List (String × Json) := match json_data with
    | .obj fs => fs
    | _ => []
  let nameArg : Json := match fields.lookup "name" with
    | some (.str s) => .str s
    | _ => .str "Unknown"
  let address : Int := match fields.lookup "addr" with
    | some v => (pyIntOf v).getD 0
    | none => 0
  let ack : Int := match fields.lookup "ack" with
    | some v => (pyIntOf v).getD 1
    | none => 1
  let radio : String := match fields.lookup "radio_node_id" with
    | some (.str s) => s
    | _ => "00000000"
  let rf : Int := match fields.lookup "rf_radio_link_quality" with
    | some v => (pyIntOf v).getD 0
    | none => 0
  let utc : Int := match fields.lookup "utc_time" with
    | some v => (pyIntOf v).getD 0
    | none => 0
  digitalInputInit act nameArg .BUTTON address ack radio rf utc

/-- `Scenario.from_json`: `id` is mandatory; `name` is passed through raw
(the base initializer normalizes it); enum-valued keys are guarded by
Python 3.12 value-membership in the enum. -/
def scenarioFromJson (json_data : Json) : Except Err CameEntityObj := do
  let sid ← getItem json_data "id"
  let fields : List (String × Json) := match json_data with
    | .obj fs => fs
    | _ => []
  let nameArg : Json := match fields.lookup "name" with
    | some v => v
    | none => .str "Unknown"
  let status : EntityStatus := match fields.lookup "status" with
    | some v =>
      match pyIntOf v with
      | some n => if entityStatusValues.contains n then entityStatusOfValue n else .UNKNOWN
      | none => .UNKNOWN
    | none => .UNKNOWN
  let ss : ScenarioStatus := match fields.lookup "scenario_status" with
    | some v =>
      match pyIntOf v with
      | some n => if scenarioStatusValues.contains n then scenarioStatusOfValue n else .NOT_APPLIED
      | none => .NOT_APPLIED
    | none => .NOT_APPLIED
  let ic : ScenarioIcon := match fields.lookup "icon_id" with
    | some v =>
      match pyIntOf v with
      | some n => if scenarioIconValues.contains n then scenarioIconOfValue n else .UNKNOWN
      | none => .UNKNOWN
    | none => .UNKNOWN
  let iud : Bool := match fields.lookup "user-defined" with
    | some v =>
      match pyIntOf v with
      | some n => n ≠ 0
      | none => false
    | none => false
  scenarioInit sid nameArg (.member status) ss ic iud

/-- `FeaturesSet.from_json`: the input must be a list of strings
(`TypeError` / `ValueError` otherwise); each string becomes a `Feature`
(whose constructor rejects the empty string); set semantics de-duplicate. -/
def featuresSetFromJson (lst : Json) : Except Err (List String) :=
  match lst with
  | .arr xs =>
    if xs.all (fun x => match x with | .str _ => true | _ => false) then
      let names := xs.filterMap (fun x => match x with | .str s => some s | _ => none)
      if names.any (· = "") then
        .error (.typeError "The feature name must be a non-empty string")
      else
        .ok (names.foldl (fun acc n => if acc.contains n then acc else acc ++ [n]) [])
    else .error (.valueError "All elements in the list should be strings.")
  | _ => .error (.typeError "Input should be a list of strings.")

/-! ## Server session state (`__init__.py`) -/

/-- The transport timeout `CameETIDomoServer._HTTP_TIMEOUT` (seconds). -/
def HTTP_TIMEOUT : Int := 10

/-- The session-relevant attributes of `CameETIDomoServer`. The server
identity fields store the raw JSON the responses carried. -/
structure ServerState where
  session_id : Json
  session_expiration_timestamp : Int
  cseq : Int
  keycode : Json
  software_version : Json
  server_type : Json
  board : Json
  serial_number : Json
  features : List String
  entities : List CameEntityObj

/-- A server together with its pending transport: each `_send_command`
consumes the outcome at the head of `transport` (either the parsed JSON
body or the exception the send raised). -/
structure World where
  st : ServerState
  transport : List (Except Err Json)

/-- One `_send_command` call: consume the next transport outcome
(an exhausted transport behaves as a failed request). -/
def popSend (w : World) : Except Err Json × World :=
  match w.transport with
  | [] => (.error .requestError, w)
  | r :: rest => (r, { w with transport := rest })

/-- Decrement `_cseq` (the rollback the failure handlers perform). -/
def rollbackCseq (w : World) : World :=
  { w with st := { w.st with cseq := w.st.cseq - 1 } }

/-- `is_authenticated`: non-empty `_session_id` and an expiration
timestamp strictly in the future. -/
def is_authenticated (st : ServerState) (now : Int) : Bool :=
  !pyEq st.session_id (.str "") && st.session_expiration_timestamp > now

/-- Interpretation of the login response in `_login`, evaluating the four
conditions with Python short-circuit order; a lookup or comparison failure
surfaces as the exception the method catches. -/
def login_check (resp : Json) : Except Err (Option (Json × Int)) := do
  let c ← getItem resp "sl_cmd"
  if pyEq c (.str "sl_registration_ack") then do
    let r ← getItem resp "sl_data_ack_reason"
    if pyEq r (.int 0) then do
      let cid ← getItem resp "sl_client_id"
      let n ← pyLen cid
      if n > 0 then do
        let tj ← getItem resp "sl_keep_alive_timeout_sec"
        let t ← pyGtZero tj
        match t with
        | some tv => pure (some (cid, tv))
        | none => pure none
      else pure none
    else pure none
  else pure none

/-- `CameETIDomoServer._login`: no exchange when already authenticated; on a
valid acknowledgement store the client id, set the expiration to
`now + (timeout − 30)` seconds and reset `_cseq` to 0; every failure
(bad acknowledgement, transport error, exception) returns `False`. -/
def login (now : Int) (w : World) : World × Bool :=
  if is_authenticated w.st now then (w, true)
  else
    let (send, w1) := popSend w
    match send with
    | .error _ => (w1, false)
    | .ok resp =>
      match login_check resp with
      | .error _ => (w1, false)
      | .ok none => (w1, false)
      | .ok (some (cid, t)) =>
        ({ w1 with st := { w1.st with
            session_id := cid,
            session_expiration_timestamp := now + (t - 30),
            cseq := 0 } }, true)

/-- The `ensure_login` decorator: no-op when authenticated, otherwise run
`_login` and turn a `False` outcome into a `CameDomoticAuthError`. -/
def ensure_login_guard (now : Int) (w : World) : World × Option Err :=
  if is_authenticated w.st now then (w, none)
  else
    let (w1, ok) := login now w
    if ok then (w1, none) else (w1, some .authError)

/-- `CameETIDomoServer.keep_alive`: immediate `False` when not
authenticated (no login is attempted); otherwise one send whose response
must satisfy `sl_cmd == "sl_keep_alive_ack"` and `sl_data_ack_reason == 0`;
every exception is caught and yields `False`. The method never touches the
session fields. -/
def keep_alive (now : Int) (w : World) : World × Bool :=
  if !is_authenticated w.st now then (w, false)
  else
    let (send, w1) := popSend w
    match send with
    | .error _ => (w1, false)
    | .ok resp =>
      match (do
        let c ← getItem resp "sl_cmd"
        if pyEq c (.str "sl_keep_alive_ack") then do
          let r ← getItem resp "sl_data_ack_reason"
          pure (pyEq r (.int 0))
        else pure false : Except Err Bool) with
      | .ok b => (w1, b)
      | .error _ => (w1, false)

/-- The `entity_type` argument of `set_entity_status` (a Python class
object; `other` stands for any non-entity value such as a string). -/
inductive EntityClass where
  | cameEntity
  | feature
  | light
  | opening
  | digitalInput
  | scenario
  | other
deriving DecidableEq, Repr

/-- The body of `set_entity_status` (inside the `ensure_login` wrapper):
unsupported entity types return `False` with a warning; the brightness is
normalized for lights; `_cseq` is incremented before the send and rolled
back only when `_send_command` (or the response access) raises — a nonzero
acknowledgement returns `False` without rollback. Accessing `.value` on a
non-member status raises before the `try` block, leaving `_cseq`
incremented. -/
def set_entity_status_body (w : World) (entity_type : EntityClass)
    (entity_id : Json) (status : StatusArg) (brightness : Option Int) :
    World × Except Err Bool :=
  if entity_type ≠ .light ∧ entity_type ≠ .opening ∧ entity_type ≠ .scenario then
    (w, .ok false)
  else
    let _bright : Int :=
      if entity_type = .light then
        match brightness with
        | none => 100
        | some b => if b < 0 || b > 100 then max 0 (min 100 b) else b
      else 0
    let _eid := entity_id
    let st1 := { w.st with cseq := w.st.cseq + 1 }
    let w1 := { w with st := st1 }
    match statusValue status with
    | .error e => (w1, .error e)
    | .ok _ =>
      let (send, w2) := popSend w1
      match send with
      | .error _ => (rollbackCseq w2, .ok false)
      | .ok resp =>
        match getItem resp "sl_data_ack_reason" with
        | .error _ => (rollbackCseq w2, .ok false)
        | .ok v => (w2, .ok (pyEq v (.int 0)))

/-- `set_entity_status` with its `ensure_login` decorator. -/
def set_entity_status (now : Int) (w : World) (entity_type : EntityClass)
    (entity_id : Json) (status : StatusArg) (brightness : Option Int) :
    World × Except Err Bool :=
  match ensure_login_guard now w with
  | (w1, some e) => (w1, .error e)
  | (w1, none) => set_entity_status_body w1 entity_type entity_id status brightness

/-- Interpretation of the feature-list response in `_fetch_features_list`. -/
def fetch_features_interpret (resp : Json) :
    Except Err (Json × Json × Json × Json × Json × List String) := do
  let reason ← getItem resp "sl_data_ack_reason"
  if pyEq reason (.int 0) then do
    let kc ← getItem resp "keycode"
    let sw ← getItem resp "swver"
    let ty ← getItem resp "type"
    let bd ← getItem resp "board"
    let sn ← getItem resp "serial"
    let lst ← getItem resp "list"
    let feats ← featuresSetFromJson lst
    pure (kc, sw, ty, bd, sn, feats)
  else Except.error (.badAckError reason)

/-- The body of `_fetch_features_list` (inside the `ensure_login` wrapper):
`_cseq` is incremented before the send; a bad acknowledgement is re-raised
WITHOUT rolling `_cseq` back, while a request error or any other exception
rolls it back and surfaces as a `CameDomoticRequestError`; on success the
identity fields and the features cache are stored. -/
def fetch_features_list_body (w : World) : World × Except Err Unit :=
  let st1 := { w.st with cseq := w.st.cseq + 1 }
  let (send, w1) := popSend { w with st := st1 }
  match send with
  | .error (.badAckError c) => (w1, .error (.badAckError c))
  | .error .requestError => (rollbackCseq w1, .error .requestError)
  | .error _ => (rollbackCseq w1, .error .requestError)
  | .ok resp =>
    match fetch_features_interpret resp with
    | .ok (kc, sw, ty, bd, sn, feats) =>
      ({ w1 with st := { w1.st with
          keycode := kc,
          software_version := sw,
          server_type := ty,
          board := bd,
          serial_number := sn,
          features := feats } }, .ok ())
    | .error (.badAckError c) => (w1, .error (.badAckError c))
    | .error _ => (rollbackCseq w1, .error .requestError)

/-- `_fetch_features_list` with its `ensure_login` decorator. -/
def fetch_features_list (now : Int) (w : World) : World × Except Err Unit :=
  match ensure_login_guard now w with
  | (w1, some e) => (w1, .error e)
  | (w1, none) => fetch_features_list_body w1

/-- Python `str.upper()` on the ASCII feature keywords (spelled out
structurally so it evaluates definitionally). -/
def pyUpperChar (c : Char) : Char :=
  if 97 ≤ c.toNat ∧ c.toNat ≤ 122 then Char.ofNat (c.toNat - 32) else c

def pyUpper (s : String) : String := ⟨s.data.map pyUpperChar⟩

/-- `EntityType[feature.name.upper()]`: the mapping a feature name goes
through in `_fetch_entities_list_by_feature` (a `KeyError` means the
feature is unsupported). -/
def entityTypeOfFeatureName (name : String) : Option EntityType :=
  if pyUpper name = "FEATURES" then some .FEATURES
  else if pyUpper name = "LIGHTS" then some .LIGHTS
  else if pyUpper name = "OPENINGS" then some .OPENINGS
  else if pyUpper name = "DIGITALIN" then some .DIGITALIN
  else if pyUpper name = "SCENARIOS" then some .SCENARIOS
  else none

/-- `_EntityType2Class[et].from_json` for the four list-bearing types
(`FEATURES` never reaches this point in the source). -/
def entityFromJsonByType : EntityType → Json → Except Err CameEntityObj
  | .LIGHTS, j => lightFromJson j
  | .OPENINGS, j => openingFromJson j
  | .DIGITALIN, j => digitalInputFromJson j
  | .SCENARIOS, j => scenarioFromJson j
  | .FEATURES, _ => .error (.attributeError "Feature has no from_json")

/-- Conversion of the whole `array` payload; the first failing element
aborts the set construction (exactly as the generator inside
`CameEntitySet(...)` does). -/
def mapFromJson (et : EntityType) : List Json → Except Err (List CameEntityObj)
  | [] => .ok []
  | x :: xs => do
    let e ← entityFromJsonByType et x
    let rest ← mapFromJson et xs
    pure (e :: rest)

/-- `CameEntitySet.add`: set semantics keyed by `__eq__` (no duplicate for
an equal element). -/
def entitySetAdd (s : List CameEntityObj) (e : CameEntityObj) : List CameEntityObj :=
  if s.any (fun x => entityEq x e) then s else s ++ [e]

/-- `CameEntitySet(iterable)`. -/
def entitySetOfList (es : List CameEntityObj) : List CameEntityObj :=
  es.foldl entitySetAdd []

/-- The body of `_fetch_entities_list_by_feature` (inside the wrapper):
an unsupported feature name is skipped (empty set, nothing sent, `_cseq`
untouched); for a supported one `_cseq` is incremented, the list request
sent, and EVERY failure — bad acknowledgement, request error, key error or
any other exception — is caught and logged (the re-raise lines are
commented out in the source), yielding an empty set with NO `_cseq`
rollback. -/
def fetch_entities_list_by_feature_body (w : World) (feature_name : String) :
    World × List CameEntityObj :=
  match entityTypeOfFeatureName feature_name with
  | none => (w, [])
  | some et =>
    if et = .LIGHTS ∨ et = .OPENINGS ∨ et = .DIGITALIN ∨ et = .SCENARIOS then
      let st1 := { w.st with cseq := w.st.cseq + 1 }
      let (send, w1) := popSend { w with st := st1 }
      match send with
      | .error _ => (w1, [])
      | .ok resp =>
        match (do
          let reason ← getItem resp "sl_data_ack_reason"
          if pyEq reason (.int 0) then do
            let arr ← getItem resp "array"
            match arr with
            | .arr items => mapFromJson et items
            | _ => Except.error (.typeError "object is not a list")
          else Except.error (.badAckError reason) : Except Err (List CameEntityObj)) with
        | .ok es => (w1, entitySetOfList es)
        | .error _ => (w1, [])
    else (w, [])

/-- `_fetch_entities_list_by_feature` with its `ensure_login` decorator. -/
def fetch_entities_list_by_feature (now : Int) (w : World) (feature_name : String) :
    World × Except Err (List CameEntityObj) :=
  match ensure_login_guard now w with
  | (w1, some e) => (w1, .error e)
  | (w1, none) =>
    let (w2, es) := fetch_entities_list_by_feature_body w1 feature_name
    (w2, .ok es)

/-- The per-feature loop of `_fetch_entities_list`, accumulating
`entities.update(...)` over the cached features. -/
def fetch_entities_loop (now : Int) :
    World → List CameEntityObj → List String → World × Except Err (List CameEntityObj)
  | w, acc, [] => (w, .ok acc)
  | w, acc, f :: fs =>
    match fetch_entities_list_by_feature now w f with
    | (w1, .error e) => (w1, .error e)
    | (w1, .ok es) => fetch_entities_loop now w1 (es.foldl entitySetAdd acc) fs

/-- `_fetch_entities_list`: fetch the features first when the cache is
empty (those failures propagate), then collect every feature's entities and
replace the entity cache. -/
def fetch_entities_list (now : Int) (w : World) : World × Except Err Unit :=
  let step : World × Except Err Unit :=
    if w.st.features.isEmpty then fetch_features_list now w else (w, .ok ())
  match step with
  | (w1, .error e) => (w1, .error e)
  | (w1, .ok ()) =>
    match fetch_entities_loop now w1 [] w1.st.features with
    | (w2, .error e) => (w2, .error e)
    | (w2, .ok es) => ({ w2 with st := { w2.st with entities := es } }, .ok ())

/-! ## Helper predicates and concrete fixtures -/

/-- True exactly when the outcome is a Python `KeyError`. -/
def isKeyErr {α : Type} : Except Err α → Bool
  | .error (.keyError _) => true
  | _ => false

/-- True exactly when the outcome is a normal return. -/
def exceptIsOk {α : Type} : Except Err α → Bool
  | .ok _ => true
  | .error _ => false

/-- The session attributes right after `CameETIDomoServer.__init__`
(empty session id, expiration in the past, `_cseq` 0, empty caches). -/
def blankState : ServerState := {
  session_id := .str ""
  session_expiration_timestamp := 0
  cseq := 0
  keycode := .str ""
  software_version := .str ""
  server_type := .str ""
  board := .str ""
  serial_number := .str ""
  features := []
  entities := [] }

/-- An authenticated session: a login at time 100 with
`sl_keep_alive_timeout_sec = 930` stored `expires_at = 100 + 930 - 30`. -/
def authedState : ServerState :=
  { blankState with session_id := .str "my_session_id",
                    session_expiration_timestamp := 1000 }

/-- The documented keep-alive acknowledgement. -/
def kaAck : Json := .obj
  [("sl_cmd", .str "sl_keep_alive_ack"),
   ("sl_data_ack_reason", .int 0),
   ("sl_client_id", .str "my_session_id")]

/-- The documented login acknowledgement with a 900 second timeout. -/
def loginAck : Json := .obj
  [("sl_cmd", .str "sl_registration_ack"),
   ("sl_client_id", .str "my_session_id"),
   ("sl_keep_alive_timeout_sec", .int 900),
   ("sl_data_ack_reason", .int 0)]

/-- A bare zero acknowledgement (as the set-status response carries). -/
def ackZeroResp : Json := .obj [("sl_data_ack_reason", .int 0)]

/-! ## C1 / C9: keep_alive -/

/-- C1: the claim says a successful keep-alive sets the session expiration
to the keep-alive time plus the cached login timeout.  Evaluating the code
at the failing input — an authenticated session whose login stored
`expires_at = 1000`, receiving a valid `sl_keep_alive_ack` at time 900 —
shows `keep_alive` returns `True` yet leaves the whole session state
(in particular the expiration timestamp) unchanged; `CameETIDomoServer`
does not even have a field caching the login timeout. -/
theorem keep_alive_ack_true_but_expiration_unchanged :
    (keep_alive 900 { st := authedState, transport := [.ok kaAck] }).2 = true ∧
    (keep_alive 900 { st := authedState, transport := [.ok kaAck] }).1.st
      = authedState ∧
    authedState.session_expiration_timestamp = 1000 :=
  ⟨rfl, rfl, rfl⟩

/-- C9: `keep_alive` never modifies the session state: on every outcome the
`_session_id`, `_session_expiration_timestamp` and `_cseq` fields (indeed
the whole `ServerState`) are unchanged, and when the session is not
authenticated the call returns `False` immediately without any exchange
(no login is attempted — the method is not wrapped in `ensure_login`). -/
theorem keep_alive_never_modifies_session_state (now : Int) (w : World) :
    (keep_alive now w).1.st = w.st ∧
    (is_authenticated w.st now = false → keep_alive now w = (w, false)) := by
  obtain ⟨st, tr⟩ := w
  constructor
  · unfold keep_alive popSend
    rcases h : is_authenticated st now
    · simp [h]
    · rcases tr with _ | ⟨r, rest⟩
      · simp [h]
      · rcases r with e | resp
        · simp [h]
        · simp only [h, Bool.not_true, if_neg]
          rcases hm : (do
            let c ← getItem resp "sl_cmd"
            if pyEq c (.str "sl_keep_alive_ack") then do
              let r ← getItem resp "sl_data_ack_reason"
              pure (pyEq r (.int 0))
            else pure false : Except Err Bool) with b | e
          all_goals simp [hm]
  · intro h
    unfold keep_alive
    simp [h]

/-- C9 witness: a fresh unauthenticated server. -/
theorem keep_alive_never_modifies_session_state_witness :
    is_authenticated blankState 0 = false ∧
    keep_alive 0 { st := blankState, transport := [] } =
      ({ st := blankState, transport := [] }, false) :=
  ⟨rfl, (keep_alive_never_modifies_session_state 0
    { st := blankState, transport := [] }).2 rfl⟩

/-! ## C7: login -/

/-- C7: on a response with `sl_cmd == "sl_registration_ack"`,
`sl_data_ack_reason == 0`, a non-empty `sl_client_id` and a positive
`sl_keep_alive_timeout_sec`, `_login` stores the client id as session id,
sets the expiration to now plus the timeout minus `max(_HTTP_TIMEOUT, 30)`
seconds (the source's literal safety margin of 30 equals that maximum since
`_HTTP_TIMEOUT = 10`), resets `_cseq` to 0 and returns `True`; and a login
attempt while already authenticated returns `True` without any exchange. -/
theorem login_valid_ack_sets_session (now : Int) (w : World)
    (rest : List (Except Err Json)) (resp : Json) (cid : String) (t : Int)
    (hauth : is_authenticated w.st now = false)
    (htr : w.transport = .ok resp :: rest)
    (hcmd : getItem resp "sl_cmd" = .ok (.str "sl_registration_ack"))
    (hack : getItem resp "sl_data_ack_reason" = .ok (.int 0))
    (hcid : getItem resp "sl_client_id" = .ok (.str cid))
    (hlen : 0 < cid.length)
    (ht : getItem resp "sl_keep_alive_timeout_sec" = .ok (.int t))
    (hpos : 0 < t) :
    (login now w = ({ st := { w.st with session_id := .str cid, session_expiration_timestamp := now + (t - max HTTP_TIMEOUT 30), cseq := 0 }, transport := rest }, true)) ∧
    (∀ (now2 : Int) (w2 : World), is_authenticated w2.st now2 = true →
      login now2 w2 = (w2, true)) := by
  constructor
  · have hmax : max HTTP_TIMEOUT 30 = 30 := by norm_num [HTTP_TIMEOUT]
    rw [hmax]
    have hcheck : login_check resp = .ok (some (.str cid, t)) := by
      have h1 : ((cid.length : Int) > 0) := by exact_mod_cast hlen
      simp only [login_check, hcmd, hack, hcid, ht, bind, Except.bind, pyEq,
        pyIntOf, pyLen]
      simp [h1, pyGtZero, pyIntOf, hpos, pure, Except.pure]
    unfold login popSend
    rw [htr]
    simp [hauth, hcheck]
  · intro now2 w2 h
    unfold login
    simp [h]

/-- C7 witness: the documented login acknowledgement at time 0. -/
theorem login_valid_ack_sets_session_witness :
    is_authenticated blankState 0 = false ∧
    login 0 { st := blankState, transport := [.ok loginAck] } =
      ({ st := { blankState with session_id := .str "my_session_id", session_expiration_timestamp := 0 + (900 - max HTTP_TIMEOUT 30), cseq := 0 }, transport := [] }, true) :=
  ⟨rfl,
    (login_valid_ack_sets_session 0 { st := blankState, transport := [.ok loginAck] }
      [] loginAck "my_session_id" 900 rfl rfl rfl rfl rfl (by decide) rfl
      (by decide)).1⟩

/-! ## C6: set_entity_status validation -/

/-- C6: the claim (and the repository's test
`test_set_entity_status_invalid_inputs`) says a non-integer `entity_id` or a
non-`EntityStatus` `status` raises a `TypeError`.  Evaluating the code: a
string `entity_id` is accepted silently — the request is sent and the call
returns `True` on a zero acknowledgement — and a string `status` raises an
`AttributeError` (from `status.value`), not a `TypeError`.  The unsupported
entity-type half of the claim does hold: a non-actionable type returns
`False` without raising. -/
theorem set_entity_status_missing_type_validation :
    (set_entity_status 900 { st := authedState, transport := [.ok ackZeroResp] }
      .light (.str "invalid_id") (.member .ON_OPEN_TRIGGERED) (some 100)).2
      = .ok true ∧
    (set_entity_status 900 { st := authedState, transport := [.ok ackZeroResp] }
      .light (.int 1) (.raw (.str "invalid_status")) (some 100)).2
      = .error (.attributeError "object has no attribute value") ∧
    (set_entity_status 900 { st := authedState, transport := [.ok ackZeroResp] }
      .feature (.int 1) (.member .ON_OPEN_TRIGGERED) (some 100)).2
      = .ok false :=
  ⟨rfl, rfl, rfl⟩

/-! ## C2: sequence-counter rollback -/

/-- A session whose `_cseq` is 5 (sequence counter mid-session). -/
def cseq5State : ServerState := { blankState with cseq := 5 }

/-- C2 counterexample: the claim says every failed send leaves `_cseq` at
its pre-call value.  In `_fetch_entities_list_by_feature` a transport error
is caught without any rollback: with `_cseq = 5`, the failed list request
for the supported feature "lights" returns normally (an empty set) and
leaves `_cseq = 6`. -/
theorem fetch_by_feature_failed_send_leaves_cseq_incremented :
    fetch_entities_list_by_feature_body
      { st := cseq5State, transport := [.error .requestError] } "lights"
      = ({ st := { cseq5State with cseq := 6 }, transport := [] }, []) ∧
    cseq5State.cseq = 5 :=
  ⟨rfl, rfl⟩

/-- C2 amended: the rollback discipline is partial.  In `set_entity_status`
a raising send rolls `_cseq` back and an acknowledged send (zero or nonzero
reason alike) leaves it incremented by exactly 1; in `_fetch_features_list`
a transport error rolls back while a bad acknowledgement (nonzero
`sl_data_ack_reason`) propagates with `_cseq` still incremented, and a
successful fetch leaves it incremented by exactly 1; in
`_fetch_entities_list_by_feature` a supported feature's request leaves
`_cseq` incremented by 1 on every outcome — no failure path rolls back. -/
theorem cseq_rollback_discipline (w : World) (et : EntityClass) (eid : Json)
    (s : EntityStatus) (b : Option Int) (e : Err) (resp : Json)
    (rest : List (Except Err Json)) (r : Int)
    (out : Json × Json × Json × Json × Json × List String) :
    (et = .light ∨ et = .opening ∨ et = .scenario →
      w.transport = .error e :: rest →
      (set_entity_status_body w et eid (.member s) b).1.st.cseq = w.st.cseq ∧
      (set_entity_status_body w et eid (.member s) b).2 = .ok false) ∧
    (et = .light ∨ et = .opening ∨ et = .scenario →
      w.transport = .ok resp :: rest →
      getItem resp "sl_data_ack_reason" = .ok (.int r) →
      (set_entity_status_body w et eid (.member s) b).1.st.cseq = w.st.cseq + 1) ∧
    (w.transport = .error .requestError :: rest →
      (fetch_features_list_body w).1.st.cseq = w.st.cseq ∧
      (fetch_features_list_body w).2 = .error .requestError) ∧
    (w.transport = .ok resp :: rest →
      getItem resp "sl_data_ack_reason" = .ok (.int r) → r ≠ 0 →
      (fetch_features_list_body w).1.st.cseq = w.st.cseq + 1 ∧
      (fetch_features_list_body w).2 = .error (.badAckError (.int r))) ∧
    (w.transport = .ok resp :: rest →
      fetch_features_interpret resp = .ok out →
      (fetch_features_list_body w).1.st.cseq = w.st.cseq + 1 ∧
      (fetch_features_list_body w).2 = .ok ()) ∧
    ((fetch_entities_list_by_feature_body w "lights").1.st.cseq = w.st.cseq + 1) := by
  obtain ⟨st, tr⟩ := w
  refine ⟨?_, ?_, ?_, ?_, ?_, ?_⟩
  · intro het htr
    simp only at htr
    subst htr
    rcases het with h | h | h <;> subst h <;>
      simp [set_entity_status_body, popSend, rollbackCseq, statusValue]
  · intro het htr hr
    simp only at htr
    subst htr
    rcases het with h | h | h <;> subst h <;>
      simp [set_entity_status_body, popSend, rollbackCseq, statusValue, hr]
  · intro htr
    simp only at htr
    subst htr
    simp [fetch_features_list_body, popSend, rollbackCseq]
  · intro htr hr hne
    simp only at htr
    subst htr
    have hi : fetch_features_interpret resp = .error (.badAckError (.int r)) := by
      simp [fetch_features_interpret, hr, bind, Except.bind, pyEq, pyIntOf, hne]
    simp [fetch_features_list_body, popSend, hi]
  · intro htr hint
    simp only at htr
    subst htr
    obtain ⟨kc, sw, ty, bd, sn, feats⟩ := out
    simp [fetch_features_list_body, popSend, hint]
  · have hn : entityTypeOfFeatureName "lights" = some .LIGHTS := rfl
    rcases tr with _ | ⟨snd, rest2⟩
    · simp [fetch_entities_list_by_feature_body, hn, popSend]
    · rcases snd with e2 | resp2
      · simp [fetch_entities_list_by_feature_body, hn, popSend]
      · simp only [fetch_entities_list_by_feature_body, hn, popSend]
        rcases hm : (do
          let reason ← getItem resp2 "sl_data_ack_reason"
          if pyEq reason (.int 0) then do
            let arr ← getItem resp2 "array"
            match arr with
            | .arr items => mapFromJson .LIGHTS items
            | _ => Except.error (.typeError "object is not a list")
          else Except.error (.badAckError reason) :
            Except Err (List CameEntityObj)) with es | e3
        all_goals simp [hm]

/-- C2 witness: the amended discipline at concrete inputs — a raising send
in `set_entity_status` restores `_cseq = 5`, and the by-feature fetch
leaves `_cseq = 6` on the same failed transport. -/
theorem cseq_rollback_discipline_witness :
    (set_entity_status_body { st := cseq5State, transport := [.error .requestError] }
      .light (.int 1) (.member .OFF_STOPPED) (some 100)).1.st.cseq
      = cseq5State.cseq ∧
    (fetch_entities_list_by_feature_body
      { st := cseq5State, transport := [.error .requestError] } "lights").1.st.cseq
      = cseq5State.cseq + 1 := by
  have h := cseq_rollback_discipline
    { st := cseq5State, transport := [.error .requestError] } .light (.int 1)
    .OFF_STOPPED (some 100) .requestError (.obj []) [] 0
    (.null, .null, .null, .null, .null, [])
  exact ⟨(h.1 (Or.inl rfl) rfl).1, h.2.2.2.2.2⟩

/-! ## C4: per-feature failure handling in get_entities -/

/-- A nonzero acknowledgement for a list request. -/
def badAckResp : Json := .obj [("sl_data_ack_reason", .int 1)]

/-- A valid lights-list response carrying one light with `act_id` 7. -/
def lightsListResp : Json := .obj
  [("sl_data_ack_reason", .int 0),
   ("array", .arr [.obj [("act_id", .int 7)]])]

/-- C4 counterexample: the claim says a transport error or bad
acknowledgement on a supported feature's list request propagates as a typed
error.  Evaluating `_fetch_entities_list_by_feature` on an authenticated
session for the supported feature "lights": both a transport error and a
nonzero acknowledgement are swallowed — the call returns a normal, empty
set (the `raise` statements are commented out in the source). -/
theorem supported_feature_errors_swallowed :
    fetch_entities_list_by_feature 900
      { st := authedState, transport := [.error .requestError] } "lights"
      = ({ st := { authedState with cseq := 1 }, transport := [] }, .ok []) ∧
    fetch_entities_list_by_feature 900
      { st := authedState, transport := [.ok badAckResp] } "lights"
      = ({ st := { authedState with cseq := 1 }, transport := [] }, .ok []) :=
  ⟨rfl, rfl⟩

/-- C4 amended: a feature whose name maps to no supported entity type is
skipped (empty set, nothing sent, state untouched) and never aborts
collection of the remaining features; but a transport error or bad
acknowledgement on a supported feature's request does NOT propagate — on an
authenticated session the decorated fetch always returns normally with
whatever the body produced (failures yield an empty set for that feature,
as the concrete two-feature run shows, where the unsupported "energy" is
skipped and the collection still returns the light from "lights"). -/
theorem unsupported_skipped_errors_swallowed (now : Int) (w : World) (name : String) :
    (entityTypeOfFeatureName name = none →
      fetch_entities_list_by_feature_body w name = (w, [])) ∧
    (is_authenticated w.st now = true →
      fetch_entities_list_by_feature now w name =
        ((fetch_entities_list_by_feature_body w name).1,
          .ok (fetch_entities_list_by_feature_body w name).2)) ∧
    (fetch_entities_loop 900 { st := authedState, transport := [.ok lightsListResp] }
      [] ["energy", "lights"]
      = ({ st := { authedState with cseq := 1 }, transport := [] },
          .ok [.light ⟨7, "Unknown", .member .UNKNOWN⟩ .ON_OFF 100])) := by
  refine ⟨?_, ?_, rfl⟩
  · intro h
    simp [fetch_entities_list_by_feature_body, h]
  · intro h
    simp [fetch_entities_list_by_feature, ensure_login_guard, h]

/-- C4 witness: the unsupported feature "energy" on a fresh server is
skipped with the state untouched, and the authenticated decorated fetch
returns normally. -/
theorem unsupported_skipped_errors_swallowed_witness :
    fetch_entities_list_by_feature_body
      { st := blankState, transport := [] } "energy"
      = ({ st := blankState, transport := [] }, []) ∧
    fetch_entities_list_by_feature 900
      { st := authedState, transport := [] } "energy"
      = ({ st := authedState, transport := [] }, .ok []) := by
  have h1 := unsupported_skipped_errors_swallowed 900
    { st := blankState, transport := [] } "energy"
  have h2 := unsupported_skipped_errors_swallowed 900
    { st := authedState, transport := [] } "energy"
  refine ⟨h1.1 rfl, ?_⟩
  rw [h2.2.1 rfl]
  rfl

/-! ## C3: entity identity -/

/-- C3 counterexample: the claim says equality is determined solely by
`(concrete type, id)`, so two Lights with the same id and different names
should be equal.  `CameEntity.__eq__` compares `repr(self)` with
`repr(other)`, and the repr includes the name: the two constructed lights
are NOT equal. -/
theorem lights_same_id_different_name_unequal :
    lightInit (.int 1) (.str "A") (.member .UNKNOWN) .ON_OFF .null
      = .ok (.light ⟨1, "A", .member .UNKNOWN⟩ .ON_OFF 100) ∧
    lightInit (.int 1) (.str "B") (.member .UNKNOWN) .ON_OFF .null
      = .ok (.light ⟨1, "B", .member .UNKNOWN⟩ .ON_OFF 100) ∧
    entityEq (.light ⟨1, "A", .member .UNKNOWN⟩ .ON_OFF 100)
      (.light ⟨1, "B", .member .UNKNOWN⟩ .ON_OFF 100) = false :=
  ⟨rfl, rfl, rfl⟩

/-- C3 amended: equality and hash are determined by the pair
`(concrete type, repr string)` — which distinguishes the name, status,
light_type and brightness in addition to the id.  Instances with all fields
equal are equal; equal instances have the same type and the same hashed
pair; instances of different concrete types are never equal even with equal
id; same-type instances with different ids are unequal; `Feature`, whose
repr exposes only the name, compares by `(type, name)`. -/
theorem entity_identity_is_type_and_repr (a b : CameEntityObj) (d : EntityData)
    (lt : LightType) (br : Int) (n : String) :
    (entityEq (.light d lt br) (.light d lt br) = true) ∧
    (entityEq a b = true →
      ctorIndex a = ctorIndex b ∧ entityHashKey a = entityHashKey b) ∧
    (entityEq (.feature n) (.feature n) = true) ∧
    (entityEq (.light ⟨1, "A", .member .UNKNOWN⟩ .ON_OFF 100)
      (.light ⟨1, "A", .member .ON_OPEN_TRIGGERED⟩ .ON_OFF 100) = false) ∧
    (entityEq (.light ⟨1, "A", .member .UNKNOWN⟩ .ON_OFF 100)
      (.light ⟨1, "A", .member .UNKNOWN⟩ .ON_OFF 50) = false) ∧
    (entityEq (.light ⟨1, "A", .member .UNKNOWN⟩ .ON_OFF 100)
      (.light ⟨2, "A", .member .UNKNOWN⟩ .ON_OFF 100) = false) ∧
    (entityEq (.light ⟨1, "A", .member .UNKNOWN⟩ .ON_OFF 100)
      (.opening ⟨1, "A", .member .UNKNOWN⟩ 1 .OPEN_CLOSE []) = false) ∧
    (entityEq (.feature "lights") (.feature "openings") = false) := by
  refine ⟨by simp [entityEq], ?_, by simp [entityEq], rfl, rfl, rfl, rfl, rfl⟩
  intro h
  rw [entityEq, Bool.and_eq_true] at h
  have h1 : ctorIndex a = ctorIndex b := by exact_mod_cast beq_iff_eq.mp h.1
  have h2 : entityRepr a = entityRepr b := beq_iff_eq.mp h.2
  exact ⟨h1, by rw [entityHashKey, entityHashKey, h1, h2]⟩

/-- C3 witness: two identically-built lights are equal with equal hash pairs. -/
theorem entity_identity_is_type_and_repr_witness :
    entityEq (.light ⟨1, "A", .member .UNKNOWN⟩ .ON_OFF 100)
      (.light ⟨1, "A", .member .UNKNOWN⟩ .ON_OFF 100) = true ∧
    entityHashKey (.light ⟨1, "A", .member .UNKNOWN⟩ .ON_OFF 100)
      = entityHashKey (.light ⟨1, "A", .member .UNKNOWN⟩ .ON_OFF 100) := by
  have h := entity_identity_is_type_and_repr
    (.light ⟨1, "A", .member .UNKNOWN⟩ .ON_OFF 100)
    (.light ⟨1, "A", .member .UNKNOWN⟩ .ON_OFF 100)
    ⟨1, "A", .member .UNKNOWN⟩ .ON_OFF 100 "x"
  exact ⟨h.1, (h.2.1 h.1).2⟩

/-! ## C5: brightness clamping -/

/-- C5 counterexample: the claim says assigning -5 (or 150) through the
`brightness` setter succeeds and stores the clamped value; the setter
actually raises a `ValueError` for every out-of-range value. -/
theorem brightness_setter_rejects_out_of_range :
    lightBrightnessSet (.light ⟨1, "Unknown", .member .UNKNOWN⟩ .ON_OFF 50)
      (.int (-5))
      = .error (.valueError "The brightness value must be between 0 and 100") ∧
    lightBrightnessSet (.light ⟨1, "Unknown", .member .UNKNOWN⟩ .ON_OFF 50)
      (.int 150)
      = .error (.valueError "The brightness value must be between 0 and 100") :=
  ⟨rfl, rfl⟩

/-- C5 amended: construction clamps every integer brightness to
`min(max(v, 0), 100)` (−5 → 0, 150 → 100, 50 → 50), while the property
setter accepts exactly the range 0..100 (storing the value unchanged) and
raises a `ValueError` for every out-of-range integer. -/
theorem brightness_clamped_on_construction_validated_on_set (v : Int)
    (d : EntityData) (lt : LightType) (b0 : Int) :
    (lightInit (.int 1) (.str "L") (.member .UNKNOWN) .ON_OFF (.int v)
      = .ok (.light ⟨1, "L", .member .UNKNOWN⟩ .ON_OFF (min (max v 0) 100))) ∧
    (0 ≤ v → v ≤ 100 →
      lightBrightnessSet (.light d lt b0) (.int v) = .ok (.light d lt v)) ∧
    (v < 0 ∨ 100 < v →
      lightBrightnessSet (.light d lt b0) (.int v)
        = .error (.valueError "The brightness value must be between 0 and 100")) ∧
    (lightInit (.int 1) (.str "L") (.member .UNKNOWN) .ON_OFF (.int (-5))
      = .ok (.light ⟨1, "L", .member .UNKNOWN⟩ .ON_OFF 0)) ∧
    (lightInit (.int 1) (.str "L") (.member .UNKNOWN) .ON_OFF (.int 150)
      = .ok (.light ⟨1, "L", .member .UNKNOWN⟩ .ON_OFF 100)) ∧
    (lightInit (.int 1) (.str "L") (.member .UNKNOWN) .ON_OFF (.int 50)
      = .ok (.light ⟨1, "L", .member .UNKNOWN⟩ .ON_OFF 50)) := by
  refine ⟨?_, ?_, ?_, rfl, rfl, rfl⟩
  · have hstep : lightInit (.int 1) (.str "L") (.member .UNKNOWN) .ON_OFF (.int v)
        = .ok (.light ⟨1, "L", .member .UNKNOWN⟩ .ON_OFF
            (if v > 100 then 100 else if v < 0 then 0 else v)) := rfl
    have hb : (if v > 100 then (100 : Int) else if v < 0 then 0 else v)
        = min (max v 0) 100 := by
      split_ifs <;> omega
    rw [hstep, hb]
  · intro h1 h2
    have hc : (decide (v < 0) || decide (v > 100)) = false := by
      simp only [Bool.or_eq_false_iff, decide_eq_false_iff_not]
      omega
    simp [lightBrightnessSet, pyIntOf, hc]
  · intro h
    have hc : (decide (v < 0) || decide (v > 100)) = true := by
      simp only [Bool.or_eq_true, decide_eq_true_eq]
      exact h
    simp [lightBrightnessSet, pyIntOf, hc]

/-- C5 witness: the amended behavior at v = 150 and v = 50. -/
theorem brightness_clamped_on_construction_validated_on_set_witness :
    lightBrightnessSet (.light ⟨1, "W", .member .UNKNOWN⟩ .ON_OFF 50) (.int 150)
      = .error (.valueError "The brightness value must be between 0 and 100") ∧
    lightBrightnessSet (.light ⟨1, "W", .member .UNKNOWN⟩ .ON_OFF 50) (.int 50)
      = .ok (.light ⟨1, "W", .member .UNKNOWN⟩ .ON_OFF 50) ∧
    lightInit (.int 1) (.str "L") (.member .UNKNOWN) .ON_OFF (.int 150)
      = .ok (.light ⟨1, "L", .member .UNKNOWN⟩ .ON_OFF (min (max 150 0) 100)) := by
  have h150 := brightness_clamped_on_construction_validated_on_set 150
    ⟨1, "W", .member .UNKNOWN⟩ .ON_OFF 50
  have h50 := brightness_clamped_on_construction_validated_on_set 50
    ⟨1, "W", .member .UNKNOWN⟩ .ON_OFF 50
  exact ⟨h150.2.2.1 (Or.inr (by decide)), h50.2.1 (by decide) (by decide), h150.1⟩

/-! ## C8: from_json mandatory keys and defaults -/

theorem cameEntityInit_cases (a n : Json) (s : StatusArg) :
    (∃ i, pyIntOf a = some i ∧
      cameEntityInit a n s = .ok ⟨i, normName n, normStatus s⟩) ∨
    (pyIntOf a = none ∧
      cameEntityInit a n s
        = .error (.typeError "The entity ID must be an integer")) := by
  unfold cameEntityInit
  rcases h : pyIntOf a with _ | v
  · exact Or.inr ⟨rfl, rfl⟩
  · exact Or.inl ⟨v, rfl, rfl⟩

theorem lightInit_not_keyError (a n : Json) (s : StatusArg) (lt : LightType)
    (b : Json) : isKeyErr (lightInit a n s lt b) = false := by
  unfold lightInit
  rcases cameEntityInit_cases a n s with ⟨i, _, hcc⟩ | ⟨_, hcc⟩ <;>
    rcases b with _ | bb | nb | sb | xs | fs <;>
      simp [hcc, bind, Except.bind, pyIntOf, pure, Except.pure, isKeyErr]

theorem openingInit_not_keyError (a n : Json) (s : StatusArg)
    (c : Option Json) (ot : OpeningType) (po : Option (List Json)) :
    isKeyErr (openingInit a n s c ot po) = false := by
  unfold openingInit
  rcases cameEntityInit_cases a n s with ⟨i, _, hcc⟩ | ⟨_, hcc⟩ <;>
    rcases c with _ | u
  · simp [hcc, bind, Except.bind, pure, Except.pure, isKeyErr]
  · rcases u with _ | bb | nb | sb | xs | fs <;>
      simp [hcc, bind, Except.bind, pyIntOf, pure, Except.pure, isKeyErr]
  · simp [hcc, bind, Except.bind, pure, Except.pure, isKeyErr]
  · rcases u with _ | bb | nb | sb | xs | fs <;>
      simp [hcc, bind, Except.bind, pyIntOf, pure, Except.pure, isKeyErr]

theorem digitalInputInit_not_keyError (a n : Json) (bt : DigitalInputType)
    (ad ack : Int) (rn : String) (rf utc : Int) :
    isKeyErr (digitalInputInit a n bt ad ack rn rf utc) = false := by
  unfold digitalInputInit
  rcases cameEntityInit_cases a n (.member .NOT_APPLICABLE) with
      ⟨i, _, hcc⟩ | ⟨_, hcc⟩ <;>
    simp [hcc, bind, Except.bind, pure, Except.pure, isKeyErr]

theorem scenarioInit_not_keyError (a n : Json) (s : StatusArg)
    (ss : ScenarioStatus) (ic : ScenarioIcon) (iud : Bool) :
    isKeyErr (scenarioInit a n s ss ic iud) = false := by
  unfold scenarioInit
  rcases cameEntityInit_cases a n s with ⟨i, _, hcc⟩ | ⟨_, hcc⟩ <;>
    simp [hcc, bind, Except.bind, pure, Except.pure, isKeyErr]

theorem lightInit_int_isOk (i : Int) (n : Json) (s : StatusArg) (lt : LightType)
    (p : Int) : exceptIsOk (lightInit (.int i) n s lt (.int p)) = true := by
  simp [lightInit, cameEntityInit, bind, Except.bind, pure, Except.pure,
    pyIntOf, exceptIsOk]

theorem openingInit_int_isOk (i k : Int) (n : Json) (s : StatusArg)
    (ot : OpeningType) (po : Option (List Json)) :
    exceptIsOk (openingInit (.int i) n s (some (.int k)) ot po) = true := by
  simp [openingInit, cameEntityInit, bind, Except.bind, pure, Except.pure,
    pyIntOf, exceptIsOk]

/-- True when a JSON value is hashable in Python (not a list or dict). -/
def pyHashable : Json → Bool
  | .arr _ => false
  | .obj _ => false
  | _ => true

theorem statusFromValueMap_typeError_or_ok (fields : List (String × Json))
    (d : EntityStatus) :
    (∃ s, statusFromValueMap fields d = .ok s) ∨
      statusFromValueMap fields d = .error (.typeError "unhashable type") := by
  unfold statusFromValueMap
  rcases fields.lookup "status" with _ | x
  · exact Or.inl ⟨d, rfl⟩
  · rcases x with _ | b | n | st | xs | fs
    · exact Or.inl ⟨d, rfl⟩
    · exact Or.inl ⟨_, rfl⟩
    · exact Or.inl ⟨_, rfl⟩
    · exact Or.inl ⟨d, rfl⟩
    · exact Or.inr rfl
    · exact Or.inr rfl

theorem lightTypeFromValueMap_typeError_or_ok (fields : List (String × Json)) :
    (∃ lt, lightTypeFromValueMap fields = .ok lt) ∨
      lightTypeFromValueMap fields = .error (.typeError "unhashable type") := by
  unfold lightTypeFromValueMap
  rcases fields.lookup "type" with _ | x
  · exact Or.inl ⟨.ON_OFF, rfl⟩
  · rcases x with _ | b | n | st | xs | fs
    · exact Or.inl ⟨.ON_OFF, rfl⟩
    · exact Or.inl ⟨.ON_OFF, rfl⟩
    · exact Or.inl ⟨.ON_OFF, rfl⟩
    · exact Or.inl ⟨_, rfl⟩
    · exact Or.inr rfl
    · exact Or.inr rfl

theorem openingTypeFromValueMap_typeError_or_ok (fields : List (String × Json)) :
    (∃ ot, openingTypeFromValueMap fields = .ok ot) ∨
      openingTypeFromValueMap fields = .error (.typeError "unhashable type") := by
  unfold openingTypeFromValueMap
  rcases fields.lookup "type" with _ | x
  · exact Or.inl ⟨.OPEN_CLOSE, rfl⟩
  · rcases x with _ | b | n | st | xs | fs
    · exact Or.inl ⟨.OPEN_CLOSE, rfl⟩
    · exact Or.inl ⟨.OPEN_CLOSE, rfl⟩
    · exact Or.inl ⟨.OPEN_CLOSE, rfl⟩
    · exact Or.inl ⟨.OPEN_CLOSE, rfl⟩
    · exact Or.inr rfl
    · exact Or.inr rfl

theorem statusFromValueMap_ok_of_hashable (fields : List (String × Json))
    (d : EntityStatus) (h : (fields.lookup "status").all pyHashable = true) :
    ∃ s, statusFromValueMap fields d = .ok s := by
  unfold statusFromValueMap
  rcases hx : fields.lookup "status" with _ | x
  · exact ⟨d, rfl⟩
  · rw [hx] at h
    rcases x with _ | b | n | st | xs | fs
    · exact ⟨d, rfl⟩
    · exact ⟨_, rfl⟩
    · exact ⟨_, rfl⟩
    · exact ⟨d, rfl⟩
    · exact Bool.noConfusion h
    · exact Bool.noConfusion h

theorem lightTypeFromValueMap_ok_of_hashable (fields : List (String × Json))
    (h : (fields.lookup "type").all pyHashable = true) :
    ∃ lt, lightTypeFromValueMap fields = .ok lt := by
  unfold lightTypeFromValueMap
  rcases hx : fields.lookup "type" with _ | x
  · exact ⟨.ON_OFF, rfl⟩
  · rw [hx] at h
    rcases x with _ | b | n | st | xs | fs
    · exact ⟨.ON_OFF, rfl⟩
    · exact ⟨.ON_OFF, rfl⟩
    · exact ⟨.ON_OFF, rfl⟩
    · exact ⟨_, rfl⟩
    · exact Bool.noConfusion h
    · exact Bool.noConfusion h

theorem openingTypeFromValueMap_ok_of_hashable (fields : List (String × Json))
    (h : (fields.lookup "type").all pyHashable = true) :
    ∃ ot, openingTypeFromValueMap fields = .ok ot := by
  unfold openingTypeFromValueMap
  rcases hx : fields.lookup "type" with _ | x
  · exact ⟨.OPEN_CLOSE, rfl⟩
  · rw [hx] at h
    rcases x with _ | b | n | st | xs | fs
    · exact ⟨.OPEN_CLOSE, rfl⟩
    · exact ⟨.OPEN_CLOSE, rfl⟩
    · exact ⟨.OPEN_CLOSE, rfl⟩
    · exact ⟨.OPEN_CLOSE, rfl⟩
    · exact Bool.noConfusion h
    · exact Bool.noConfusion h

/-- C8 counterexample: the claim says unrecognized or malformed optional
values fall back to the type's default rather than raising.  The
`status`/`type` guards of `Light.from_json` and `Opening.from_json` test
membership in the plain `_value2member_map_` dict, and Python dict
membership raises `TypeError: unhashable type` for a list or dict value —
so `Light.from_json({"act_id": 5, "status": []})` raises instead of
defaulting (while Scenario and DigitalInput, whose guards use enum-class
membership, tolerate the same value). -/
theorem light_from_json_unhashable_optional_raises :
    lightFromJson (.obj [("act_id", .int 5), ("status", .arr [])])
      = .error (.typeError "unhashable type") ∧
    openingFromJson (.obj [("open_act_id", .int 5), ("type", .obj [])])
      = .error (.typeError "unhashable type") :=
  ⟨rfl, rfl⟩

/-- C8 amended: each concrete entity type's `from_json` raises a
missing-key error exactly when its single mandatory server-assigned id key
(`act_id` for Light and DigitalInput, `open_act_id` for Opening, `id` for
Scenario) is absent; a dictionary holding only that key yields the
documented defaults (for Light: name "Unknown", status UNKNOWN, light_type
ON_OFF, brightness 100); hashable unrecognized or malformed optional
values fall back to the defaults rather than raising, and with an
integer-valued mandatory key the parse then succeeds — but for Light and
Opening an unhashable value (a list or dict) under `status` or `type`
raises a `TypeError` from the plain dict-membership guard, whereas
Scenario and DigitalInput (enum-class membership) tolerate any optional
value. -/
theorem from_json_requires_exactly_the_id_key (fields : List (String × Json))
    (i : Int) :
    (isKeyErr (lightFromJson (.obj fields)) = true ↔
      fields.lookup "act_id" = none) ∧
    (isKeyErr (openingFromJson (.obj fields)) = true ↔
      fields.lookup "open_act_id" = none) ∧
    (isKeyErr (digitalInputFromJson (.obj fields)) = true ↔
      fields.lookup "act_id" = none) ∧
    (isKeyErr (scenarioFromJson (.obj fields)) = true ↔
      fields.lookup "id" = none) ∧
    (lightFromJson (.obj [("act_id", .int 5)])
      = .ok (.light ⟨5, "Unknown", .member .UNKNOWN⟩ .ON_OFF 100)) ∧
    (lightFromJson (.obj [("act_id", .int 5), ("name", .int 7),
        ("status", .int 99), ("type", .str "XX"), ("perc", .str "p")])
      = .ok (.light ⟨5, "Unknown", .member .UNKNOWN⟩ .ON_OFF 100)) ∧
    (exceptIsOk (scenarioFromJson (.obj [("id", .int 5), ("status", .arr [])]))
      = true) ∧
    (fields.lookup "act_id" = some (.int i) →
      (fields.lookup "status").all pyHashable = true →
      (fields.lookup "type").all pyHashable = true →
      exceptIsOk (lightFromJson (.obj fields)) = true) ∧
    (fields.lookup "open_act_id" = some (.int i) →
      (fields.lookup "status").all pyHashable = true →
      (fields.lookup "type").all pyHashable = true →
      exceptIsOk (openingFromJson (.obj fields)) = true) ∧
    (fields.lookup "act_id" = some (.int i) →
      exceptIsOk (digitalInputFromJson (.obj fields)) = true) ∧
    (fields.lookup "id" = some (.int i) →
      exceptIsOk (scenarioFromJson (.obj fields)) = true) := by
  refine ⟨?_, ?_, ?_, ?_, rfl, rfl, rfl, ?_, ?_, ?_, ?_⟩
  · cases h : fields.lookup "act_id" with
    | none => simp [lightFromJson, getItem, h, isKeyErr, bind, Except.bind]
    | some v =>
      simp only [lightFromJson, getItem, h, bind, Except.bind]
      rcases statusFromValueMap_typeError_or_ok fields .UNKNOWN with ⟨s0, hs⟩ | hs <;>
        rcases lightTypeFromValueMap_typeError_or_ok fields with ⟨lt0, hl⟩ | hl <;>
          first
            | (simp [hs, hl, bind, Except.bind, lightInit_not_keyError]; done)
            | (simp [hs, hl, bind, Except.bind, isKeyErr]; done)
  · cases h : fields.lookup "open_act_id" with
    | none => simp [openingFromJson, getItem, h, isKeyErr, bind, Except.bind]
    | some v =>
      simp only [openingFromJson, getItem, h, bind, Except.bind]
      rcases statusFromValueMap_typeError_or_ok fields .UNKNOWN with ⟨s0, hs⟩ | hs <;>
        rcases openingTypeFromValueMap_typeError_or_ok fields with ⟨ot0, ho⟩ | ho <;>
          first
            | (simp [hs, ho, bind, Except.bind, openingInit_not_keyError]; done)
            | (simp [hs, ho, bind, Except.bind, isKeyErr]; done)
  · cases h : fields.lookup "act_id" with
    | none =>
      simp [digitalInputFromJson, getItem, h, isKeyErr, bind, Except.bind]
    | some v =>
      simp only [digitalInputFromJson, getItem, h, bind, Except.bind]
      simp [digitalInputInit_not_keyError]
  · cases h : fields.lookup "id" with
    | none => simp [scenarioFromJson, getItem, h, isKeyErr, bind, Except.bind]
    | some v =>
      simp only [scenarioFromJson, getItem, h, bind, Except.bind]
      simp [scenarioInit_not_keyError]
  · intro h hst hty
    simp only [lightFromJson, getItem, h, bind, Except.bind]
    obtain ⟨s0, hs⟩ := statusFromValueMap_ok_of_hashable fields .UNKNOWN hst
    obtain ⟨lt0, hl⟩ := lightTypeFromValueMap_ok_of_hashable fields hty
    simp [hs, hl, bind, Except.bind, lightInit_int_isOk]
  · intro h hst hty
    simp only [openingFromJson, getItem, h, bind, Except.bind]
    obtain ⟨s0, hs⟩ := statusFromValueMap_ok_of_hashable fields .UNKNOWN hst
    obtain ⟨ot0, ho⟩ := openingTypeFromValueMap_ok_of_hashable fields hty
    rcases hcl : fields.lookup "close_act_id" with _ | u
    · simp [hcl, hs, ho, bind, Except.bind, openingInit_int_isOk]
    · rcases hpu : pyIntOf u with _ | k
      · simp [hcl, hpu, hs, ho, bind, Except.bind, openingInit_int_isOk]
      · have hu : u = .int k ∨ u = .bool (k == 1) := by
          rcases u with _ | ub | nu | su | xsu | fsu <;> simp_all [pyIntOf]
          rcases ub with _ | _ <;> simp_all <;> omega
        rcases hu with hu | hu <;> subst hu <;>
          simp [hcl, hs, ho, openingInit, cameEntityInit, bind, Except.bind,
            pure, Except.pure, pyIntOf, exceptIsOk]
  · intro h
    simp only [digitalInputFromJson, getItem, h, bind, Except.bind]
    simp [digitalInputInit, cameEntityInit, bind, Except.bind, pure,
      Except.pure, pyIntOf, exceptIsOk]
  · intro h
    simp only [scenarioFromJson, getItem, h, bind, Except.bind]
    simp [scenarioInit, cameEntityInit, bind, Except.bind, pure,
      Except.pure, pyIntOf, exceptIsOk]

/-- C8 witness: a dictionary with all three id keys (and no `status`/`type`
keys) parses as each type, and the empty dictionary fails each with a
missing-key error. -/
theorem from_json_requires_exactly_the_id_key_witness :
    exceptIsOk (lightFromJson (.obj [("act_id", .int 5), ("open_act_id", .int 5), ("id", .int 5)])) = true ∧
    exceptIsOk (openingFromJson (.obj [("act_id", .int 5), ("open_act_id", .int 5), ("id", .int 5)])) = true ∧
    exceptIsOk (digitalInputFromJson (.obj [("act_id", .int 5), ("open_act_id", .int 5), ("id", .int 5)])) = true ∧
    exceptIsOk (scenarioFromJson (.obj [("act_id", .int 5), ("open_act_id", .int 5), ("id", .int 5)])) = true ∧
    isKeyErr (lightFromJson (.obj [])) = true := by
  have h := from_json_requires_exactly_the_id_key
    [("act_id", .int 5), ("open_act_id", .int 5), ("id", .int 5)] 5
  have h0 := from_json_requires_exactly_the_id_key ([] : List (String × Json)) 5
  exact ⟨h.2.2.2.2.2.2.2.1 rfl rfl rfl, h.2.2.2.2.2.2.2.2.1 rfl rfl rfl,
    h.2.2.2.2.2.2.2.2.2.1 rfl, h.2.2.2.2.2.2.2.2.2.2 rfl, h0.1.mpr rfl⟩

/-! ## C10: constructor/setter status asymmetry -/

/-- C10: the `CameEntity` constructor never raises on an invalid status —
`None` or any value that is not a member (nor a member's value) of
`EntityStatus` is silently replaced by `EntityStatus.UNKNOWN` — whereas the
`status` property setter raises a `TypeError` for the same value, so
construction and mutation enforce the status domain asymmetrically. -/
theorem invalid_status_defaulted_by_constructor_rejected_by_setter (j : Json)
    (d : EntityData) (h : statusArgIn (.raw j) = false) :
    cameEntityInit (.int 1) (.str "Test") (.raw j)
      = .ok ⟨1, "Test", .member .UNKNOWN⟩ ∧
    cameEntityStatusSet d (.raw j)
      = .error (.typeError "The entity status must be a valid EntityStatus") := by
  constructor
  · simp [cameEntityInit, pyIntOf, normName, normStatus, h]
  · simp [cameEntityStatusSet, h]

/-- C10 witness: the invalid status `"Not a valid status"` (and `None`). -/
theorem invalid_status_defaulted_by_constructor_rejected_by_setter_witness :
    (cameEntityInit (.int 1) (.str "Test") (.raw (.str "Not a valid status"))
      = .ok ⟨1, "Test", .member .UNKNOWN⟩ ∧
     cameEntityStatusSet ⟨1, "Test", .member .UNKNOWN⟩
        (.raw (.str "Not a valid status"))
      = .error (.typeError "The entity status must be a valid EntityStatus")) ∧
    (cameEntityInit (.int 1) (.str "Test") (.raw .null)
      = .ok ⟨1, "Test", .member .UNKNOWN⟩) :=
  ⟨invalid_status_defaulted_by_constructor_rejected_by_setter
      (.str "Not a valid status") ⟨1, "Test", .member .UNKNOWN⟩ rfl,
   (invalid_status_defaulted_by_constructor_rejected_by_setter
      .null ⟨1, "Test", .member .UNKNOWN⟩ rfl).1⟩

end CameDomotic
